import Mathlib

/-!
# xfiledialog: the native bridge `net_tomahawk_XFileDialog.cpp`

A shallow embedding of the three routines of the bridge

* `Java_net_tomahawk_XFileDialog_nativeWindowsInitialize`,
* `GetWindowHandleFromAWT`,
* `Java_net_tomahawk_XFileDialog_nativeWindowsFileDialog`,

together with the helpers `getString` and `toJavaString`.

Global variables (`_hJAWT`, `awt`) are passed explicitly as a `Globals` value.
Calls into the operating system, the Java toolkit and the MFC dialog are
answers supplied by an environment value; the calls a routine makes are
recorded in an event list so that acquire/release discipline can be stated.
Diagnostic output (`trace`) is not part of the functional behaviour and is
omitted; the `traceLevel` argument is kept in the signatures.
-/

set_option linter.unusedVariables false

namespace XFileDialog

/-! ## Strings -/

/-- A UTF-16 code unit (`WCHAR`, `jchar`), as its number. -/
abbrev WCHAR := Nat

/-- The terminator `0x0000`. -/
def NUL : WCHAR := 0

/-- A character constant of the source, as a code unit. -/
def wchar (c : Char) : WCHAR := c.toNat

/-- A string constant of the source (`_T("...")`), as its code units without the terminator.
It is only applied to ASCII text. -/
def _T (s : String) : List WCHAR := s.toList.map Char.toNat

/-- The content of an MFC `CString` (the terminator is not part of it). -/
abbrev CString := List WCHAR

/-- A Java string: its `GetStringLength` code units. -/
abbrev jstring := List WCHAR

/-- A pointer to a buffer of code units (`LPWSTR`, `LPCWSTR`); `none` is `NULL`. -/
abbrev LPWSTR := Option (List WCHAR)

/-- The C string stored in a buffer: the code units before the first terminator. -/
def wcs (buf : List WCHAR) : CString := buf.takeWhile (fun c => decide (c ≠ NUL))

/-- Construction of a `CString` from an `LPCWSTR`; a null pointer gives the empty string. -/
def CString.ofLPCWSTR (p : LPWSTR) : CString :=
  match p with
  | none => []
  | some buf => wcs buf

/-- Source lines 39-51: `getString`. The buffer has `len + 1` units: the `len` units of the Java
string followed by the terminator. -/
def getString (jstr : Option jstring) : LPWSTR :=
  match jstr with
  | none => none
  | some s => some (s ++ [NUL])

/-- Source lines 171-180: `toJavaString`, `NewString(buf, cstr.GetLength())`. -/
def toJavaString (traceLevel : Int) (cstr : CString) : jstring := cstr

/-- The MFC routine `CString::ReverseFind`: index of the last occurrence of `ch`, or `-1`. -/
def ReverseFind : CString → WCHAR → Int
  | [], _ => -1
  | c :: cs, ch =>
    let r := ReverseFind cs ch
    if r ≠ -1 then r + 1 else if c = ch then 0 else -1

/-- The MFC routine `CString::Left`: the first `nCount` units (none for a negative count, all of
them for a count beyond the length). -/
def Left (s : CString) (nCount : Int) : CString := s.take nCount.toNat

/-- The MFC routine `CString::Mid` with one argument: the units from index `iFirst` on. -/
def Mid (s : CString) (iFirst : Int) : CString := s.drop iFirst.toNat

/-- The C runtime routine `wcscpy_s(dest, n, src)`: copies the C string at `src` with its
terminator into a destination of `n` units. When the string does not fit, the invalid-parameter
handler is invoked (`none`). -/
def wcscpy_s (numberOfElements : Nat) (src : List WCHAR) : Option (List WCHAR) :=
  if (wcs src).length < numberOfElements then some (wcs src ++ [NUL]) else none

/-! ## Constants -/

/-- Source line 24. -/
def MAX_MULTIFILE_SELECTION : Nat := 100

/-- Windows `MAX_PATH`. -/
def MAX_PATH : Nat := 260

/-- Windows `IDOK`. -/
def IDOK : Int := 1

/-- Source line 53. -/
def ERR_ALREADY_INITIALIZED : Int := -8
/-- Source line 54. -/
def ERR_CANT_LOAD_JAWT_DLL : Int := -7
/-- Source line 55. -/
def ERR_CANT_GET_JAWT_PROC : Int := -6
/-- Source line 56. -/
def ERR_CANT_GET_AWT : Int := -5

/-- From `jawt.h`: `JAWT_VERSION_1_4`. -/
def JAWT_VERSION_1_4 : Nat := 0x00010004

/-- From `jawt.h`: `JAWT_LOCK_ERROR`. -/
def JAWT_LOCK_ERROR : Nat := 0x00000001

/-- From `commdlg.h`. -/
def OFN_OVERWRITEPROMPT : Nat := 0x2
/-- From `commdlg.h`. -/
def OFN_HIDEREADONLY : Nat := 0x4
/-- From `commdlg.h`. -/
def OFN_ALLOWMULTISELECT : Nat := 0x200
/-- From `commdlg.h`. -/
def OFN_FILEMUSTEXIST : Nat := 0x1000
/-- From `commdlg.h`. -/
def OFN_EXPLORER : Nat := 0x80000
/-- From `commdlg.h`. -/
def OFN_ENABLESIZING : Nat := 0x800000

/-! ## Global state -/

/-- A module handle returned by `LoadLibrary`. -/
abbrev HMODULE := Nat

/-- A window handle; `0` is `NULL`. -/
abbrev HWND := Nat

/-- The structure `JAWT` of `jawt.h`: the requested version and the function pointers the
toolkit fills in (`0` is a null pointer). -/
structure JAWT where
  version : Nat
  GetDrawingSurface : Nat
  FreeDrawingSurface : Nat
  Lock : Nat
  Unlock : Nat
  GetComponent : Nat
deriving DecidableEq, Repr

/-- Source lines 35-36: the two globals. `_hJAWT = none` is the null handle. -/
structure Globals where
  _hJAWT : Option HMODULE
  awt : JAWT
deriving DecidableEq, Repr

/-- The state of a freshly loaded library: `_hJAWT = NULL` and a zero-filled `awt`. -/
def Globals.initial : Globals := ⟨none, ⟨0, 0, 0, 0, 0, 0⟩⟩

/-! ## `nativeWindowsInitialize` -/

/-- The target the library is compiled for (`OS_ARCH_X86` or `OS_ARCH_X64`). -/
inductive Arch where
  | x86
  | x64
deriving DecidableEq, Repr

/-- Source lines 88-93: the exported name looked up. -/
def Arch.symbol : Arch → String
  | .x86 => "_JAWT_GetAWT@8"
  | .x64 => "JAWT_GetAWT"

/-- The answers of the operating system and of the loaded library to the calls of
`nativeWindowsInitialize`. `JAWT_GetAWT proc awt` is the call through the resolved pointer: it
returns a flag and what it left in the structure. -/
structure Win32 where
  LoadLibrary : CString → Option HMODULE
  GetProcAddress : HMODULE → String → Option Nat
  JAWT_GetAWT : Nat → JAWT → Bool × JAWT

/-- The calls `nativeWindowsInitialize` makes, in order. -/
inductive InitEvent where
  | LoadLibrary (path : CString)
  | GetProcAddress (h : HMODULE) (name : String)
  | JAWT_GetAWT (proc : Nat)
  | FreeLibrary (h : HMODULE)
deriving DecidableEq, Repr

/-- What a call of `nativeWindowsInitialize` leaves: the returned `jint`, the globals, the calls
made. -/
structure InitResult where
  status : Int
  globals : Globals
  events : List InitEvent
deriving DecidableEq, Repr

/-- Source lines 95-111: the part of `nativeWindowsInitialize` after a library was loaded. -/
def initializeLoaded (os : Win32) (arch : Arch) (g : Globals) (h : HMODULE)
    (loads : List InitEvent) : InitResult :=
  match os.GetProcAddress h arch.symbol with
  | none =>
    -- FreeLibrary(_hJAWT); _hJAWT = NULL; return ERR_CANT_GET_JAWT_PROC;
    ⟨ERR_CANT_GET_JAWT_PROC, { g with _hJAWT := none },
      loads ++ [.GetProcAddress h arch.symbol, .FreeLibrary h]⟩
  | some JAWT_GetAWT =>
    -- awt.version = JAWT_VERSION_1_4;
    let awt1 : JAWT := { g.awt with version := JAWT_VERSION_1_4 }
    let r := os.JAWT_GetAWT JAWT_GetAWT awt1
    if r.1 = false then
      -- FreeLibrary(_hJAWT); _hJAWT = NULL; return ERR_CANT_GET_AWT;
      ⟨ERR_CANT_GET_AWT, ⟨none, r.2⟩,
        loads ++ [.GetProcAddress h arch.symbol, .JAWT_GetAWT JAWT_GetAWT, .FreeLibrary h]⟩
    else
      ⟨0, ⟨some h, r.2⟩, loads ++ [.GetProcAddress h arch.symbol, .JAWT_GetAWT JAWT_GetAWT]⟩

/-- Source lines 58-112: `Java_net_tomahawk_XFileDialog_nativeWindowsInitialize`. -/
def nativeWindowsInitialize (os : Win32) (arch : Arch) (g : Globals)
    (traceLevel : Int) (j_javaHome : Option jstring) : InitResult :=
  -- if (_hJAWT) return ERR_ALREADY_INITIALIZED;
  if g._hJAWT.isSome then ⟨ERR_ALREADY_INITIALIZED, g, []⟩
  else
    let javaHome := getString j_javaHome
    let jrePath : CString := CString.ofLPCWSTR javaHome ++ _T "\\bin"
    let jawt := jrePath ++ _T "\\jawt.dll"
    let awtdll := jrePath ++ _T "\\awt.dll"
    match os.LoadLibrary jawt with
    | some h => initializeLoaded os arch g h [.LoadLibrary jawt]
    | none =>
      match os.LoadLibrary awtdll with
      | some h => initializeLoaded os arch g h [.LoadLibrary jawt, .LoadLibrary awtdll]
      | none =>
        ⟨ERR_CANT_LOAD_JAWT_DLL, { g with _hJAWT := none },
          [.LoadLibrary jawt, .LoadLibrary awtdll]⟩

/-! ## `GetWindowHandleFromAWT` -/

/-- The answers of the toolkit for one component: the drawing surface (`none` is `NULL`), the
value `Lock` returns, the surface info (`none` is `NULL`), and its `platformInfo` (`none` is
`NULL`, otherwise the `hwnd` field of the structure it points to). -/
structure AwtAnswers where
  GetDrawingSurface : Option Nat
  Lock : Nat
  GetDrawingSurfaceInfo : Option Nat
  platformInfo : Option HWND
deriving DecidableEq, Repr

/-- The toolkit calls `GetWindowHandleFromAWT` makes. The three acquiring calls carry whether
they succeeded. -/
inductive AwtEvent where
  | GetDrawingSurface (ok : Bool)
  | Lock (ok : Bool)
  | GetDrawingSurfaceInfo (ok : Bool)
  | FreeDrawingSurfaceInfo (dsi : Nat)
  | Unlock (ds : Nat)
  | FreeDrawingSurface (ds : Nat)
deriving DecidableEq, Repr

/-- Source lines 165-166, label `out1`. -/
def out1 (ds : Nat) : List AwtEvent := [.FreeDrawingSurface ds]

/-- Source lines 163-164, label `out2`, falling through to `out1`. -/
def out2 (ds : Nat) : List AwtEvent := .Unlock ds :: out1 ds

/-- Source lines 161-162, label `out3`, falling through to `out2`. -/
def out3 (ds dsi : Nat) : List AwtEvent := .FreeDrawingSurfaceInfo dsi :: out2 ds

/-- Source lines 114-169: `GetWindowHandleFromAWT`. Returns the handle (`0` for `NULL`) and the
toolkit calls made. -/
def GetWindowHandleFromAWT (g : Globals) (toolkit : Nat → AwtAnswers)
    (traceLevel : Int) (j_parent : Nat) : HWND × List AwtEvent :=
  if g._hJAWT.isNone then (0, [])
  else
    match (toolkit j_parent).GetDrawingSurface with
    | none => (0, [.GetDrawingSurface false])
    | some ds =>
      let lock := (toolkit j_parent).Lock
      if lock &&& JAWT_LOCK_ERROR ≠ 0 then
        (0, [.GetDrawingSurface true, .Lock false] ++ out1 ds)
      else
        match (toolkit j_parent).GetDrawingSurfaceInfo with
        | none =>
          (0, [.GetDrawingSurface true, .Lock true, .GetDrawingSurfaceInfo false] ++ out2 ds)
        | some dsi =>
          match (toolkit j_parent).platformInfo with
          | none =>
            (0, [.GetDrawingSurface true, .Lock true, .GetDrawingSurfaceInfo true]
              ++ out3 ds dsi)
          | some hwnd =>
            (hwnd, [.GetDrawingSurface true, .Lock true, .GetDrawingSurfaceInfo true]
              ++ out3 ds dsi)

/-! ## The MFC dialog as the bridge sees it -/

/-- What `nativeWindowsFileDialog` reads from the `CFileDialog` object once `DoModal`
has returned. A `POSITION` is a number, `none` is `NULL`; `GetNextPathName pos` returns the
string of that call and the position it leaves in `pos`. -/
structure CFileDialog where
  DoModal : Int
  GetPathName : CString
  GetStartPosition : Option Nat
  GetNextPathName : Nat → CString × Option Nat

/-- The sequence of strings successive calls of `GetNextPathName` return, from position `pos`
until the position becomes `NULL`. -/
inductive Iterates (dlg : CFileDialog) : Option Nat → List CString → Prop where
  | done : Iterates dlg none []
  | next (p : Nat) (s : CString) (pos : Option Nat) (rest : List CString) :
      dlg.GetNextPathName p = (s, pos) → Iterates dlg pos rest →
      Iterates dlg (some p) (s :: rest)

/-! ## `nativeWindowsFileDialog` -/

/-- The arguments of `nativeWindowsFileDialog` (`none` is `NULL`). -/
structure DialogArgs where
  traceLevel : Int
  j_parent : Option Nat
  j_title : Option jstring
  isLoad : Bool
  isMulti : Bool
  j_filter : Option jstring
  j_extension : Option jstring
  j_initialDir : Option jstring
  j_initialFile : Option jstring

/-- What the bridge hands to the native dialog: the arguments of the `CFileDialog` constructor
(source lines 231-233) and the fields of `m_ofn` it assigns (source lines 235-238). -/
structure DialogConfig where
  bOpenFileDialog : Bool
  lpszDefExt : LPWSTR
  lpszFileName : LPWSTR
  dwFlags : Nat
  lpszFilter : LPWSTR
  pParentWnd : Option HWND
  lpstrFile : LPWSTR
  nMaxFile : Nat
  lpstrTitle : LPWSTR
  lpstrInitialDir : LPWSTR
deriving DecidableEq, Repr

/-- Source lines 197-206: the parent window and the toolkit calls made to find it. -/
def parentWindow (g : Globals) (toolkit : Nat → AwtAnswers) (traceLevel : Int)
    (j_parent : Option Nat) : Option HWND × List AwtEvent :=
  match j_parent with
  | none => (none, [])
  | some p =>
    let r := GetWindowHandleFromAWT g toolkit traceLevel p
    if r.1 = 0 then (none, r.2) else (some r.1, r.2)

/-- Source line 224. -/
def resultlen (isMulti : Bool) : Nat :=
  if isMulti then MAX_PATH * MAX_MULTIFILE_SELECTION else MAX_PATH

/-- Source lines 225-229: the selection buffer; `none` when `wcscpy_s` rejects the copy. -/
def resultBuffer (isMulti : Bool) (initialFile : LPWSTR) : Option (List WCHAR) :=
  match initialFile with
  | some f => wcscpy_s (resultlen isMulti) f
  | none => some [NUL]

/-- Source lines 197-238: the configuration the dialog is shown with, `none` when the
invalid-parameter handler of `wcscpy_s` ends the call before the dialog is constructed. -/
def dialogConfig (g : Globals) (toolkit : Nat → AwtAnswers) (a : DialogArgs) :
    Option DialogConfig :=
  let pParentWnd := (parentWindow g toolkit a.traceLevel a.j_parent).1
  let title := getString a.j_title
  let extension := getString a.j_extension
  let initialDir := getString a.j_initialDir
  let initialFile := getString a.j_initialFile
  let filter := getString a.j_filter
  let multiFlag := if a.isMulti then OFN_ALLOWMULTISELECT else 0
  match resultBuffer a.isMulti initialFile with
  | none => none
  | some result =>
    some
      { bOpenFileDialog := a.isLoad
        lpszDefExt := extension
        lpszFileName := none
        dwFlags := multiFlag ||| OFN_EXPLORER ||| OFN_HIDEREADONLY ||| OFN_ENABLESIZING
          ||| OFN_FILEMUSTEXIST ||| OFN_OVERWRITEPROMPT
        lpszFilter := filter
        pParentWnd := pParentWnd
        lpstrFile := some result
        nMaxFile := resultlen a.isMulti
        lpstrTitle := title
        lpstrInitialDir := initialDir }

/-- A `CString` array made by `new CString[size]`. -/
structure CStringArray where
  size : Nat
  elems : Nat → CString

/-- The array `new CString[n]`: `n` empty strings. -/
def CStringArray.new (n : Nat) : CStringArray := ⟨n, fun _ => []⟩

/-- The assignment `a[i] = v`; `none` when `i` is not an index of the array. -/
def CStringArray.store (a : CStringArray) (i : Nat) (v : CString) : Option CStringArray :=
  if i < a.size then some ⟨a.size, fun j => if j = i then v else a.elems j⟩ else none

/-- The read `a[i]`; `none` when `i` is not an index of the array. -/
def CStringArray.load (a : CStringArray) (i : Nat) : Option CString :=
  if i < a.size then some (a.elems i) else none

/-- How a call of `nativeWindowsFileDialog` ends. -/
inductive Outcome where
  /-- The invalid-parameter handler of `wcscpy_s` was invoked. -/
  | invalidParameter
  /-- An index outside the `filenames` array was used. -/
  | outOfBounds
  /-- The call returned `ret` (`none` is `NULL`). -/
  | returned (ret : Option (List jstring))
deriving DecidableEq, Repr

/-- Source lines 269-274: the loop `while (pos != NULL && count < MAX_MULTIFILE_SELECTION)`.
The first argument is `MAX_MULTIFILE_SELECTION - count`, which is positive exactly when
`count < MAX_MULTIFILE_SELECTION`. The result is the final `count` and array. -/
def selectLoop (dlg : CFileDialog) :
    Nat → Option Nat → Nat → CStringArray → Option (Nat × CStringArray)
  | 0, _, count, filenames => some (count, filenames)
  | _ + 1, none, count, filenames => some (count, filenames)
  | room + 1, some pos, count, filenames =>
    -- count++; filenames[count] = dlg.GetNextPathName(pos);
    match filenames.store (count + 1) (dlg.GetNextPathName pos).1 with
    | none => none
    | some filenames1 => selectLoop dlg room (dlg.GetNextPathName pos).2 (count + 1) filenames1

/-- Source lines 275-288: the directory entry of a multi-selection. -/
def multiDir (dlg : CFileDialog) (count : Nat) : CString :=
  let dir := dlg.GetPathName
  if count = 1 then
    let sep := ReverseFind dir (wchar '\\')
    Left dir (sep + 1)
  else if count > 1 then dir ++ (_T "\\")
  else dir

/-- Source lines 299-302: the strings `filenames[i+1]` for `i < count`. -/
def loadNames (traceLevel : Int) (filenames : CStringArray) : Nat → Option (List jstring)
  | 0 => some []
  | n + 1 =>
    match loadNames traceLevel filenames n, filenames.load (n + 1) with
    | some names, some s => some (names ++ [toJavaString traceLevel s])
    | _, _ => none

/-- Source lines 294-303: the returned array, `NULL` when `count` is zero. -/
def packResult (traceLevel : Int) (filenames : CStringArray) (count : Nat) : Outcome :=
  if count > 0 then
    match filenames.load 0, loadNames traceLevel filenames count with
    | some dir, some names => .returned (some (toJavaString traceLevel dir :: names))
    | _, _ => .outOfBounds
  else .returned none

/-- Source lines 247-259: the single-selection branch. -/
def singleSelect (traceLevel : Int) (dlg : CFileDialog) : Outcome :=
  let filenames := CStringArray.new 2
  let path := dlg.GetPathName
  let sep := ReverseFind path (wchar '\\')
  match filenames.store 0 (Left path (sep + 1)) with
  | none => .outOfBounds
  | some filenames1 =>
    match filenames1.store 1 (Mid path (sep + 1)) with
    | none => .outOfBounds
    | some filenames2 => packResult traceLevel filenames2 1

/-- Source lines 260-292: the multi-selection branch. -/
def multiSelect (traceLevel : Int) (dlg : CFileDialog) : Outcome :=
  let filenames := CStringArray.new (MAX_MULTIFILE_SELECTION + 1)
  match selectLoop dlg MAX_MULTIFILE_SELECTION dlg.GetStartPosition 0 filenames with
  | none => .outOfBounds
  | some (count, filenames1) =>
    match filenames1.store 0 (multiDir dlg count) with
    | none => .outOfBounds
    | some filenames2 => packResult traceLevel filenames2 count

/-- Source lines 240-310: what is returned once the dialog has been dismissed. -/
def marshal (traceLevel : Int) (isMulti : Bool) (dlg : CFileDialog) : Outcome :=
  if dlg.DoModal = IDOK then
    if !isMulti then singleSelect traceLevel dlg else multiSelect traceLevel dlg
  else .returned none

/-- Source lines 182-324: `Java_net_tomahawk_XFileDialog_nativeWindowsFileDialog`. The
argument `user` is what the dialog does when shown with a given configuration. -/
def nativeWindowsFileDialog (g : Globals) (toolkit : Nat → AwtAnswers)
    (user : DialogConfig → CFileDialog) (a : DialogArgs) : Outcome :=
  match dialogConfig g toolkit a with
  | none => .invalidParameter
  | some cfg => marshal a.traceLevel a.isMulti (user cfg)

/-! ## The MFC implementation of the iteration

`CFileDialog::GetPathName`, `GetStartPosition` and `GetNextPathName` belong to MFC
(`afxdlgs.h`, `dlgfile.cpp`), not to the bridge. They read the buffer `m_ofn.lpstrFile`,
which with `OFN_EXPLORER | OFN_ALLOWMULTISELECT` holds the directory and the file names,
each closed by a terminator, with one more terminator at the end; with a single file it holds
that file's full path. `GetNextPathName` returns full paths: the MFC documentation gives
`C:\FILES\TEXT.DAT` as what it returns for the file `TEXT.DAT`.
-/

/-- The C string starting at index `i` of a buffer. -/
def wcsAt (buf : List WCHAR) (i : Nat) : CString := wcs (buf.drop i)

/-- The unit at index `i` of a buffer (the terminator past its end). -/
def unitAt (buf : List WCHAR) (i : Nat) : WCHAR := buf.getD i NUL

/-- MFC, `CFileDialog::GetNextPathName` with `OFN_EXPLORER` set (the bridge always sets it):
whether `strPath` already ends in the separator found by `_tcsrchr`. -/
def endsInSeparator (strPath : CString) : Bool :=
  let i := if ReverseFind strPath (wchar '\\') ≠ -1 then ReverseFind strPath (wchar '\\')
    else ReverseFind strPath (wchar '/')
  decide (strPath ≠ [] ∧ i ≠ -1 ∧ i = (strPath.length : Int) - 1)

/-- MFC, the end of `CFileDialog::GetNextPathName`: the path built from the directory at the
head of the buffer and a file name. A backslash is put between them unless the directory
already ends in a separator. -/
def fullPath (strPath strFileName : CString) : CString :=
  if endsInSeparator strPath then strPath ++ strFileName
  else strPath ++ wchar '\\' :: strFileName

/-- MFC, `CFileDialog::GetNextPathName` with `OFN_EXPLORER` set. Position `0` is the start of
the buffer, the value `GetStartPosition` returns. -/
def mfcGetNextPathName (multi : Bool) (buf : List WCHAR) (pos : Nat) : CString × Option Nat :=
  let base := wcsAt buf 0
  if pos = 0 ∧ (multi = false ∨ unitAt buf (base.length + 1) = NUL) then (base, none)
  else
    let lpsz := if pos = 0 then base.length + 1 else pos
    let strFileName := wcsAt buf lpsz
    let next := lpsz + strFileName.length + 1
    let pos1 := if unitAt buf next = NUL then none else some next
    (fullPath base strFileName, pos1)

/-- The MFC dialog object after `DoModal` returned `result` and left `buf` in
`m_ofn.lpstrFile`. -/
def mfcDialog (multi : Bool) (result : Int) (buf : List WCHAR) : CFileDialog where
  DoModal := result
  GetPathName := wcsAt buf 0
  GetStartPosition := some 0
  GetNextPathName := mfcGetNextPathName multi buf

/-- The strings of a list, each followed by a terminator. -/
def terminated : List CString → List WCHAR
  | [] => []
  | n :: ns => n ++ NUL :: terminated ns

/-- The buffer the system dialog leaves for a multi-selection of two or more files: the
directory, then each name, every one closed by a terminator, and a final terminator. -/
def multiBuffer (dir : CString) (names : List CString) : List WCHAR :=
  dir ++ NUL :: (terminated names ++ [NUL])

/-- The buffer the system dialog leaves for one selected file: its full path. -/
def singleBuffer (path : CString) : List WCHAR := path ++ [NUL, NUL]

/-! ## Concrete inputs used in the examples -/

/-- An argument record with no parent and no strings. -/
def plainArgs (isMulti : Bool) : DialogArgs :=
  ⟨0, none, none, true, isMulti, none, none, none, none⟩

/-- A toolkit that has no drawing surface for any component. -/
def noToolkit : Nat → AwtAnswers := fun _ => ⟨none, 0, none, none⟩

/-- Windows `IDCANCEL`. -/
def IDCANCEL : Int := 2

/-- A selection of 101 files whose names are `a`, `aa`, `aaa`, and so on. -/
def manyNames : List CString :=
  (List.range 101).map (fun i => List.replicate (i + 1) (wchar 'a'))

/-! ## Bookkeeping of the toolkit resources -/

/-- The three things `GetWindowHandleFromAWT` acquires. -/
inductive Resource where
  | surface
  | lock
  | info
deriving DecidableEq, Repr

/-- The resources acquired in a sequence of toolkit calls, in order of acquisition. -/
def acquired : List AwtEvent → List Resource
  | [] => []
  | .GetDrawingSurface true :: es => .surface :: acquired es
  | .Lock true :: es => .lock :: acquired es
  | .GetDrawingSurfaceInfo true :: es => .info :: acquired es
  | _ :: es => acquired es

/-- The resources released in a sequence of toolkit calls, in order of release. -/
def released : List AwtEvent → List Resource
  | [] => []
  | .FreeDrawingSurfaceInfo _ :: es => .info :: released es
  | .Unlock _ :: es => .lock :: released es
  | .FreeDrawingSurface _ :: es => .surface :: released es
  | _ :: es => released es

/-- The number of capability queries (`JAWT_GetAWT` calls) among the calls of an
initialization. -/
def queries (events : List InitEvent) : Nat :=
  (events.filter (fun e => match e with | .JAWT_GetAWT _ => true | _ => false)).length

/-- The libraries freed among the calls of an initialization. -/
def freed (events : List InitEvent) : List HMODULE :=
  events.filterMap (fun e => match e with | .FreeLibrary h => some h | _ => none)

/-- A system on which no library can be loaded. -/
def noLibrary : Win32 where
  LoadLibrary := fun _ => none
  GetProcAddress := fun _ _ => none
  JAWT_GetAWT := fun _ awt => (false, awt)

/-- A system on which the library loads and exports the symbol, and the capability query
refuses and leaves the structure as it got it. -/
def refusingToolkit : Win32 where
  LoadLibrary := fun _ => some 1
  GetProcAddress := fun _ _ => some 1
  JAWT_GetAWT := fun _ awt => (false, awt)

/-- A system on which initialization succeeds. -/
def workingToolkit : Win32 where
  LoadLibrary := fun _ => some 1
  GetProcAddress := fun _ _ => some 1
  JAWT_GetAWT := fun _ awt => (true, { awt with GetDrawingSurface := 1, FreeDrawingSurface := 2,
                                                Lock := 3, Unlock := 4, GetComponent := 5 })

/-- Globals after a successful initialization on `workingToolkit`. -/
def initializedGlobals : Globals :=
  ⟨some 1, ⟨JAWT_VERSION_1_4, 1, 2, 3, 4, 5⟩⟩

/-- A toolkit whose drawing surface `11` locks without error and has no surface info. -/
def surfaceWithoutInfo : Nat → AwtAnswers := fun _ => ⟨some 11, 0, none, none⟩

/-! ## Lemmas on the string routines -/

theorem ReverseFind_ge (s : CString) (ch : WCHAR) : -1 ≤ ReverseFind s ch := by
  induction s with
  | nil => simp [ReverseFind]
  | cons c cs ih =>
    simp only [ReverseFind]
    split_ifs <;> omega

theorem ReverseFind_lt (s : CString) (ch : WCHAR) : ReverseFind s ch < s.length := by
  induction s with
  | nil => simp [ReverseFind]
  | cons c cs ih =>
    simp only [ReverseFind, List.length_cons]
    split_ifs <;> push_cast <;> omega

theorem ReverseFind_eq_neg_one (s : CString) (ch : WCHAR) :
    ReverseFind s ch = -1 ↔ ch ∉ s := by
  induction s with
  | nil => simp [ReverseFind]
  | cons c cs ih =>
    have hge := ReverseFind_ge cs ch
    simp only [ReverseFind, List.mem_cons, not_or]
    split_ifs with h1 h2
    · constructor
      · intro h; omega
      · intro h; exact absurd (ih.mpr h.2) h1
    · constructor
      · intro h; simp at h
      · intro h; exact absurd h2.symm h.1
    · constructor
      · intro _; exact ⟨fun h => h2 h.symm, ih.mp (by simpa using h1)⟩
      · intro _; trivial

theorem not_mem_Mid_ReverseFind (s : CString) (ch : WCHAR) :
    ch ∉ Mid s (ReverseFind s ch + 1) := by
  unfold Mid
  induction s with
  | nil => simp
  | cons c cs ih =>
    have hge := ReverseFind_ge cs ch
    simp only [ReverseFind]
    split_ifs with h1 h2
    · have : (ReverseFind cs ch + 1 + 1).toNat = (ReverseFind cs ch + 1).toNat + 1 := by omega
      rw [this, List.drop_succ_cons]; exact ih
    · have h1' : ReverseFind cs ch = -1 := by simpa using h1
      rw [h1'] at ih
      simpa using ih
    · have h1' : ReverseFind cs ch = -1 := by simpa using h1
      rw [h1'] at ih
      have hc : ch ∉ cs := by simpa using ih
      simp only [Int.reduceNeg, neg_add_cancel, Int.toNat_zero, List.drop_zero, List.mem_cons,
        not_or]
      exact ⟨fun h => h2 h.symm, hc⟩

theorem getLast_Left_ReverseFind (s : CString) (ch : WCHAR) (h : ReverseFind s ch ≠ -1) :
    (Left s (ReverseFind s ch + 1)).getLast? = some ch := by
  unfold Left
  induction s with
  | nil => simp [ReverseFind] at h
  | cons c cs ih =>
    have hge := ReverseFind_ge cs ch
    simp only [ReverseFind] at h ⊢
    split_ifs at h ⊢ with h1 h2
    · have e : (ReverseFind cs ch + 1 + 1).toNat = (ReverseFind cs ch + 1).toNat + 1 := by omega
      rw [e, List.take_succ_cons]
      have ih' := ih h1
      cases hl : List.take (ReverseFind cs ch + 1).toNat cs with
      | nil => rw [hl] at ih'; simp at ih'
      | cons x xs => rw [hl] at ih'; rw [List.getLast?_cons_cons]; exact ih'
    · simp [h2]
    · exact absurd rfl h

theorem Left_append_Mid (s : CString) (n : Int) : Left s n ++ Mid s n = s := by
  simp [Left, Mid]

/-! ## Lemmas on the dialog routine -/

theorem nativeWindowsFileDialog_shown (g : Globals) (toolkit : Nat → AwtAnswers)
    (user : DialogConfig → CFileDialog) (a : DialogArgs) (cfg : DialogConfig)
    (hcfg : dialogConfig g toolkit a = some cfg) :
    nativeWindowsFileDialog g toolkit user a = marshal a.traceLevel a.isMulti (user cfg) := by
  simp [nativeWindowsFileDialog, hcfg]

theorem singleSelect_eq (traceLevel : Int) (dlg : CFileDialog) :
    singleSelect traceLevel dlg = .returned (some
      [Left dlg.GetPathName (ReverseFind dlg.GetPathName (wchar '\\') + 1),
       Mid dlg.GetPathName (ReverseFind dlg.GetPathName (wchar '\\') + 1)]) := by
  simp [singleSelect, CStringArray.new, CStringArray.store, packResult, loadNames,
    CStringArray.load, toJavaString]

/-- C1. When the dialog is shown in single-selection mode and the user confirms, the call returns
exactly two strings, directory first: put together they are the reported path, the second one
holds no backslash, and the first one ends in a backslash - the final backslash of the path -
whenever the path has one (it is empty when the path has none). -/
theorem single_select_splits_at_final_backslash (g : Globals) (toolkit : Nat → AwtAnswers)
    (user : DialogConfig → CFileDialog) (a : DialogArgs) (cfg : DialogConfig) (path : CString)
    (hcfg : dialogConfig g toolkit a = some cfg)
    (hsingle : a.isMulti = false)
    (hok : (user cfg).DoModal = IDOK)
    (hpath : (user cfg).GetPathName = path) :
    ∃ dir file : jstring,
      nativeWindowsFileDialog g toolkit user a = .returned (some [dir, file]) ∧
      dir ++ file = path ∧ wchar '\\' ∉ file ∧
      (wchar '\\' ∈ path → dir.getLast? = some (wchar '\\')) ∧
      (wchar '\\' ∉ path → dir = []) := by
  refine ⟨Left path (ReverseFind path (wchar '\\') + 1),
    Mid path (ReverseFind path (wchar '\\') + 1), ?_,
    Left_append_Mid _ _, not_mem_Mid_ReverseFind _ _, ?_, ?_⟩
  · rw [nativeWindowsFileDialog_shown g toolkit user a cfg hcfg]
    simp [marshal, hok, hsingle, singleSelect_eq, hpath]
  · intro hmem
    apply getLast_Left_ReverseFind
    intro h
    exact ((ReverseFind_eq_neg_one path (wchar '\\')).mp h) hmem
  · intro hmem
    rw [(ReverseFind_eq_neg_one path (wchar '\\')).mpr hmem]
    simp [Left]

/-- Witness for C1: the path `C:\dir\file.txt` gives `C:\dir\` and `file.txt`. -/
theorem single_select_splits_at_final_backslash_witness :
    (∃ dir file : jstring,
      nativeWindowsFileDialog Globals.initial noToolkit
        (fun _ => mfcDialog false IDOK (singleBuffer (_T "C:\\dir\\file.txt")))
        (plainArgs false) = .returned (some [dir, file]) ∧
      dir ++ file = (_T "C:\\dir\\file.txt") ∧ wchar '\\' ∉ file ∧
      (wchar '\\' ∈ (_T "C:\\dir\\file.txt") → dir.getLast? = some (wchar '\\')) ∧
      (wchar '\\' ∉ (_T "C:\\dir\\file.txt") → dir = [])) ∧
    nativeWindowsFileDialog Globals.initial noToolkit
        (fun _ => mfcDialog false IDOK (singleBuffer (_T "C:\\dir\\file.txt")))
        (plainArgs false) = .returned (some [_T "C:\\dir\\", _T "file.txt"]) :=
  ⟨single_select_splits_at_final_backslash Globals.initial noToolkit
      (fun _ => mfcDialog false IDOK (singleBuffer (_T "C:\\dir\\file.txt")))
      (plainArgs false) _ (_T "C:\\dir\\file.txt") (by rfl) (by rfl) (by rfl) (by decide),
    by decide⟩

/-- C4. Whatever the arguments, when the dialog is shown and `DoModal` returns anything but
`IDOK`, the call returns `NULL` and ends in no fault. -/
theorem cancel_returns_null (g : Globals) (toolkit : Nat → AwtAnswers)
    (user : DialogConfig → CFileDialog) (a : DialogArgs) (cfg : DialogConfig)
    (hcfg : dialogConfig g toolkit a = some cfg)
    (hcancel : (user cfg).DoModal ≠ IDOK) :
    nativeWindowsFileDialog g toolkit user a = .returned none := by
  rw [nativeWindowsFileDialog_shown g toolkit user a cfg hcfg]
  simp [marshal, hcancel]

/-- Witness for C4: a multi-selection dialog closed with `IDCANCEL`. -/
theorem cancel_returns_null_witness :
    nativeWindowsFileDialog Globals.initial noToolkit
      (fun _ => mfcDialog true IDCANCEL [NUL]) (plainArgs true) = .returned none :=
  cancel_returns_null Globals.initial noToolkit (fun _ => mfcDialog true IDCANCEL [NUL])
    (plainArgs true) _ (by rfl) (by decide)

theorem GetWindowHandleFromAWT_uninitialized (g : Globals) (toolkit : Nat → AwtAnswers)
    (traceLevel : Int) (p : Nat) (h : g._hJAWT = none) :
    (GetWindowHandleFromAWT g toolkit traceLevel p).1 = 0 := by
  simp [GetWindowHandleFromAWT, h]

/-- C8. A parent reference that the resolver maps to no window handle (in particular whenever
no library handle is stored) changes nothing: the dialog configuration, with no parent window,
and the outcome of the call are those of the same call made without a parent reference. -/
theorem unresolved_parent_is_ignored (g : Globals) (toolkit : Nat → AwtAnswers)
    (user : DialogConfig → CFileDialog) (a : DialogArgs) (p : Nat)
    (hp : a.j_parent = some p)
    (hnull : g._hJAWT = none ∨ (GetWindowHandleFromAWT g toolkit a.traceLevel p).1 = 0) :
    dialogConfig g toolkit a = dialogConfig g toolkit { a with j_parent := none } ∧
    (∀ cfg, dialogConfig g toolkit a = some cfg → cfg.pParentWnd = none) ∧
    nativeWindowsFileDialog g toolkit user a =
      nativeWindowsFileDialog g toolkit user { a with j_parent := none } := by
  have h0 : (GetWindowHandleFromAWT g toolkit a.traceLevel p).1 = 0 := by
    rcases hnull with h | h
    · exact GetWindowHandleFromAWT_uninitialized g toolkit _ p h
    · exact h
  have hpar : (parentWindow g toolkit a.traceLevel a.j_parent).1 = none := by
    simp [parentWindow, hp, h0]
  have hcfg : dialogConfig g toolkit a = dialogConfig g toolkit { a with j_parent := none } := by
    simp only [dialogConfig, hpar]
    simp [parentWindow]
  refine ⟨hcfg, ?_, ?_⟩
  · intro cfg h
    simp only [dialogConfig, hpar] at h
    split at h
    · exact absurd h (by simp)
    · cases h; rfl
  · simp only [nativeWindowsFileDialog, hcfg]

/-- Witness for C8: a parent reference given before any initialization. -/
theorem unresolved_parent_is_ignored_witness :
    dialogConfig Globals.initial noToolkit { plainArgs false with j_parent := some 7 } =
      dialogConfig Globals.initial noToolkit
        { { plainArgs false with j_parent := some 7 } with j_parent := none } ∧
    (∀ cfg, dialogConfig Globals.initial noToolkit { plainArgs false with j_parent := some 7 }
      = some cfg → cfg.pParentWnd = none) ∧
    nativeWindowsFileDialog Globals.initial noToolkit
        (fun _ => mfcDialog false IDOK (singleBuffer (_T "C:\\dir\\file.txt")))
        { plainArgs false with j_parent := some 7 } =
      nativeWindowsFileDialog Globals.initial noToolkit
        (fun _ => mfcDialog false IDOK (singleBuffer (_T "C:\\dir\\file.txt")))
        { { plainArgs false with j_parent := some 7 } with j_parent := none } :=
  unresolved_parent_is_ignored Globals.initial noToolkit
    (fun _ => mfcDialog false IDOK (singleBuffer (_T "C:\\dir\\file.txt")))
    { plainArgs false with j_parent := some 7 } 7 rfl (Or.inl rfl)

theorem wcs_append_NUL (s : List WCHAR) : wcs (s ++ [NUL]) = wcs s := by
  induction s with
  | nil => simp [wcs]
  | cons c cs ih =>
    unfold wcs at ih ⊢
    by_cases h : c = NUL
    · simp [h]
    · simpa [h] using ih

theorem dialogConfig_eq_none_iff (g : Globals) (toolkit : Nat → AwtAnswers) (a : DialogArgs) :
    dialogConfig g toolkit a = none ↔
      ∃ s, a.j_initialFile = some s ∧ resultlen a.isMulti ≤ (wcs s).length := by
  unfold dialogConfig
  cases hf : a.j_initialFile with
  | none => simp [getString, resultBuffer]
  | some s =>
    by_cases h : (wcs s).length < resultlen a.isMulti
    · simp [getString, resultBuffer, wcscpy_s, wcs_append_NUL, h]
    · simp [getString, resultBuffer, wcscpy_s, wcs_append_NUL, h]
      omega

/-- C9 as amended. In the configuration the dialog is shown with, the title, the filter, the
extension and the initial directory are null when the argument is absent and otherwise point to
the argument's code units followed by a terminator. The initial file is different: the file-name
argument of the constructor is always null, and the selection buffer `lpstrFile` is never null -
it holds the empty string when the initial file is absent, and otherwise the initial file up to
its first terminator, which then fits the buffer. -/
theorem string_inputs_in_configuration (g : Globals) (toolkit : Nat → AwtAnswers)
    (a : DialogArgs) (cfg : DialogConfig) (hcfg : dialogConfig g toolkit a = some cfg) :
    cfg.lpstrTitle = a.j_title.map (fun s => s ++ [NUL]) ∧
    cfg.lpszFilter = a.j_filter.map (fun s => s ++ [NUL]) ∧
    cfg.lpszDefExt = a.j_extension.map (fun s => s ++ [NUL]) ∧
    cfg.lpstrInitialDir = a.j_initialDir.map (fun s => s ++ [NUL]) ∧
    cfg.lpszFileName = none ∧
    (a.j_initialFile = none → cfg.lpstrFile = some [NUL]) ∧
    (∀ s, a.j_initialFile = some s →
      cfg.lpstrFile = some (wcs s ++ [NUL]) ∧ (wcs s).length < resultlen a.isMulti) := by
  obtain ⟨tl, par, title, isLoad, isMulti, filter, ext, idir, ifile⟩ := a
  unfold dialogConfig at hcfg
  cases ifile with
  | none =>
    simp only [resultBuffer, getString] at hcfg
    cases hcfg
    cases title <;> cases filter <;> cases ext <;> cases idir <;> simp
  | some s =>
    simp only [getString, resultBuffer, wcscpy_s, wcs_append_NUL] at hcfg
    split at hcfg
    · exact absurd hcfg (by simp)
    · rename_i result hres
      split at hres
      · rename_i hlt
        cases hres
        cases hcfg
        cases title <;> cases filter <;> cases ext <;> cases idir <;> simp [hlt]
      · exact absurd hres (by simp)

/-- Witness for C9: a title and an initial file are given, the other strings are absent. -/
theorem string_inputs_in_configuration_witness :
    ∃ cfg, dialogConfig Globals.initial noToolkit
        { plainArgs false with j_title := some (_T "Open"),
                               j_initialFile := some (_T "a.txt") } = some cfg ∧
      cfg.lpstrTitle = some ((_T "Open") ++ [NUL]) ∧ cfg.lpszFilter = none ∧
      cfg.lpszFileName = none ∧ cfg.lpstrFile = some ((_T "a.txt") ++ [NUL]) :=
  ⟨_, rfl,
    (string_inputs_in_configuration Globals.initial noToolkit
      { plainArgs false with j_title := some (_T "Open"),
                             j_initialFile := some (_T "a.txt") } _ rfl).1,
    by decide, by decide, by decide⟩

/-- Counterexample to C9 as stated: with no initial file the selection buffer handed to the
dialog is not null but holds an empty string, and with an initial file the file-name argument
of the constructor is null all the same. -/
theorem initial_file_is_not_passed_through :
    (dialogConfig Globals.initial noToolkit (plainArgs false)).map (fun c => c.lpstrFile)
      = some (some [NUL]) ∧
    (dialogConfig Globals.initial noToolkit
      { plainArgs false with j_initialFile := some (_T "a.txt") }).map
        (fun c => c.lpszFileName) = some none := by
  decide

/-! ## The multi-selection loop -/

theorem selectLoop_iterates (dlg : CFileDialog) :
    ∀ (room : Nat) (pos : Option Nat) (count : Nat) (filenames : CStringArray)
      (paths : List CString),
      Iterates dlg pos paths → count + room < filenames.size →
      ∃ filenames1, selectLoop dlg room pos count filenames
          = some (count + min paths.length room, filenames1) ∧
        filenames1.size = filenames.size ∧
        (∀ j, j ≤ count → filenames1.elems j = filenames.elems j) ∧
        (∀ i, i < min paths.length room →
          paths[i]? = some (filenames1.elems (count + 1 + i))) := by
  intro room
  induction room with
  | zero =>
    intro pos count filenames paths _ _
    exact ⟨filenames, by simp [selectLoop], rfl, fun _ _ => rfl, by simp⟩
  | succ room ih =>
    intro pos count filenames paths hit hsize
    cases hit with
    | done => exact ⟨filenames, by simp [selectLoop], rfl, fun _ _ => rfl, by simp⟩
    | next p s pos1 rest hnext hrest =>
      have hstore : filenames.store (count + 1) s
          = some ⟨filenames.size, fun j => if j = count + 1 then s else filenames.elems j⟩ := by
        simp only [CStringArray.store]
        rw [if_pos (by omega)]
      obtain ⟨f1, hrun, hsz, hkeep, hnew⟩ := ih pos1 (count + 1)
        ⟨filenames.size, fun j => if j = count + 1 then s else filenames.elems j⟩ rest hrest
        (by simp only; omega)
      refine ⟨f1, ?_, hsz, ?_, ?_⟩
      · simp only [selectLoop, hnext, hstore, hrun, List.length_cons]
        congr 2
        omega
      · intro j hj
        rw [hkeep j (by omega)]
        simp only
        rw [if_neg (by omega)]
      · intro i hi
        cases i with
        | zero =>
          rw [hkeep (count + 1) (le_refl _)]
          simp
        | succ i =>
          have := hnew i (by simp only [List.length_cons] at hi; omega)
          simp only [List.getElem?_cons_succ]
          rw [this]
          congr 2
          omega

theorem loadNames_take (traceLevel : Int) (filenames : CStringArray) (paths : List CString) :
    ∀ n, n < filenames.size →
      (∀ i, i < n → paths[i]? = some (filenames.elems (1 + i))) →
      loadNames traceLevel filenames n = some (paths.take n) := by
  intro n
  induction n with
  | zero => intro _ _; simp [loadNames]
  | succ n ih =>
    intro hsize h
    have h1 := ih (by omega) (fun i hi => h i (by omega))
    have h2 := h n (by omega)
    have hload : filenames.load (n + 1) = some (filenames.elems (n + 1)) := by
      simp only [CStringArray.load]
      rw [if_pos hsize]
    simp only [loadNames, h1, hload, toJavaString]
    rw [List.take_succ, h2, Nat.add_comm 1 n]
    rfl

theorem multiSelect_iterates (traceLevel : Int) (dlg : CFileDialog) (paths : List CString)
    (hit : Iterates dlg dlg.GetStartPosition paths) :
    multiSelect traceLevel dlg =
      if paths = [] then .returned none
      else .returned (some (multiDir dlg (min paths.length MAX_MULTIFILE_SELECTION)
        :: paths.take MAX_MULTIFILE_SELECTION)) := by
  obtain ⟨f1, hrun, hsz, hkeep, hnew⟩ := selectLoop_iterates dlg MAX_MULTIFILE_SELECTION
    dlg.GetStartPosition 0 (CStringArray.new (MAX_MULTIFILE_SELECTION + 1)) paths hit
    (by simp [CStringArray.new])
  simp only [CStringArray.new] at hsz
  have hstore : ∀ v, f1.store 0 v
      = some ⟨f1.size, fun j => if j = 0 then v else f1.elems j⟩ := by
    intro v
    simp only [CStringArray.store]
    rw [if_pos (by rw [hsz]; omega)]
  simp only [multiSelect, hrun, Nat.zero_add, hstore]
  cases paths with
  | nil => simp [packResult]
  | cons s rest =>
    have hpos : min (s :: rest).length MAX_MULTIFILE_SELECTION > 0 := by
      simp [MAX_MULTIFILE_SELECTION]
    have hnames := loadNames_take traceLevel
      ⟨f1.size, fun j => if j = 0 then multiDir dlg (min (s :: rest).length
        MAX_MULTIFILE_SELECTION) else f1.elems j⟩ (s :: rest)
      (min (s :: rest).length MAX_MULTIFILE_SELECTION)
      (by simp only [hsz]; omega)
      (by
        intro i hi
        have := hnew i hi
        simp only [Nat.zero_add] at this
        rw [this]
        simp only
        rw [if_neg (by omega)])
    simp only [packResult, hpos, if_true, CStringArray.load, hnames, toJavaString]
    rw [if_pos (by rw [hsz]; omega)]
    simp [List.take_take, min_comm]

/-- C10. In multi-selection mode, when the user confirms and the dialog iterates the paths
`paths`, the call returns `NULL` if there are none, and otherwise the directory followed by the
first `min n 100` of them in order, which is `min n 100 + 1` strings and never more than 101.
The directory is `GetPathName` with a backslash appended when two or more paths were stored,
and `GetPathName` cut after its final backslash when one was. The loop stops at
`count = min n 100` with every store inside the 101 slots of `filenames`, and the call does not
end in a fault. -/
theorem multi_select_keeps_first_hundred (g : Globals) (toolkit : Nat → AwtAnswers)
    (user : DialogConfig → CFileDialog) (a : DialogArgs) (cfg : DialogConfig)
    (paths : List CString)
    (hcfg : dialogConfig g toolkit a = some cfg)
    (hmulti : a.isMulti = true)
    (hok : (user cfg).DoModal = IDOK)
    (hit : Iterates (user cfg) (user cfg).GetStartPosition paths) :
    (paths.length = 0 → nativeWindowsFileDialog g toolkit user a = .returned none) ∧
    (paths.length ≠ 0 → ∃ ret,
      nativeWindowsFileDialog g toolkit user a = .returned (some ret) ∧
      ret = multiDir (user cfg) (min paths.length 100) :: paths.take 100 ∧
      ret.length = min paths.length 100 + 1 ∧ ret.length ≤ 101) ∧
    (∃ filenames, selectLoop (user cfg) MAX_MULTIFILE_SELECTION (user cfg).GetStartPosition 0
        (CStringArray.new (MAX_MULTIFILE_SELECTION + 1))
      = some (min paths.length 100, filenames) ∧ filenames.size = 101) ∧
    nativeWindowsFileDialog g toolkit user a ≠ .outOfBounds ∧
    nativeWindowsFileDialog g toolkit user a ≠ .invalidParameter := by
  have hrun : nativeWindowsFileDialog g toolkit user a
      = if paths = [] then .returned none
        else .returned (some (multiDir (user cfg) (min paths.length MAX_MULTIFILE_SELECTION)
          :: paths.take MAX_MULTIFILE_SELECTION)) := by
    rw [nativeWindowsFileDialog_shown g toolkit user a cfg hcfg]
    simp only [marshal, hok, hmulti, if_true]
    exact multiSelect_iterates a.traceLevel (user cfg) paths hit
  refine ⟨?_, ?_, ?_, ?_, ?_⟩
  · intro h0
    rw [hrun, if_pos (List.length_eq_zero.mp h0)]
  · intro h0
    have hne : paths ≠ [] := fun h => h0 (by rw [h]; rfl)
    refine ⟨multiDir (user cfg) (min paths.length 100) :: paths.take 100, ?_, rfl, ?_, ?_⟩
    · rw [hrun, if_neg hne]; rfl
    · simp [MAX_MULTIFILE_SELECTION, min_comm]
    · simp only [List.length_cons, List.length_take, MAX_MULTIFILE_SELECTION]
      omega
  · obtain ⟨f1, h1, hsz, _, _⟩ := selectLoop_iterates (user cfg) MAX_MULTIFILE_SELECTION
      (user cfg).GetStartPosition 0 (CStringArray.new (MAX_MULTIFILE_SELECTION + 1)) paths hit
      (by simp [CStringArray.new])
    refine ⟨f1, ?_, ?_⟩
    · rw [h1]; simp [MAX_MULTIFILE_SELECTION]
    · rw [hsz]; rfl
  · rw [hrun]; split <;> simp
  · rw [hrun]; split <;> simp

/-- Witness for C10: the dialog iterates two paths. -/
theorem multi_select_keeps_first_hundred_witness :
    ∃ ret,
      nativeWindowsFileDialog Globals.initial noToolkit
        (fun _ => mfcDialog true IDOK
          (multiBuffer (_T "C:\\dir") [_T "a.txt", _T "b.txt"]))
        (plainArgs true) = .returned (some ret) ∧
      ret = multiDir (mfcDialog true IDOK
          (multiBuffer (_T "C:\\dir") [_T "a.txt", _T "b.txt"])) (min 2 100)
        :: [_T "C:\\dir\\a.txt", _T "C:\\dir\\b.txt"].take 100 ∧
      ret.length = min 2 100 + 1 ∧ ret.length ≤ 101 :=
  (multi_select_keeps_first_hundred Globals.initial noToolkit
    (fun _ => mfcDialog true IDOK
      (multiBuffer (_T "C:\\dir") [_T "a.txt", _T "b.txt"]))
    (plainArgs true) _ [_T "C:\\dir\\a.txt", _T "C:\\dir\\b.txt"] rfl rfl rfl
    (Iterates.next 0 _ (some 13) _ (by decide)
      (Iterates.next 13 _ none _ (by decide) Iterates.done))).2.1 (by decide)

/-! ## The MFC iteration over a multi-selection buffer -/

theorem wcs_append_terminator (s rest : List WCHAR) (h : NUL ∉ s) :
    wcs (s ++ NUL :: rest) = s := by
  induction s with
  | nil => simp [wcs]
  | cons c cs ih =>
    have hc : c ≠ NUL := fun e => h (by simp [e])
    have hcs : NUL ∉ cs := fun e => h (by simp [e])
    have := ih hcs
    unfold wcs at this ⊢
    simpa [hc] using this

theorem wcsAt_append (pre s rest : List WCHAR) (h : NUL ∉ s) :
    wcsAt (pre ++ (s ++ NUL :: rest)) pre.length = s := by
  simp [wcsAt, wcs_append_terminator s rest h]

theorem unitAt_append (pre rest : List WCHAR) :
    unitAt (pre ++ rest) pre.length = rest.headD NUL := by
  cases rest with
  | nil => simp [unitAt, List.getD]
  | cons c cs =>
    simp only [unitAt, List.getD, List.headD_cons, List.get?_eq_getElem?]
    rw [List.getElem?_append_right (le_refl _)]
    simp

theorem headD_terminated (rest : List CString) (h : ∀ n ∈ rest, NUL ∉ n ∧ n ≠ []) :
    (terminated rest ++ [NUL]).headD NUL = NUL ↔ rest = [] := by
  cases rest with
  | nil => simp [terminated]
  | cons n ns =>
    obtain ⟨h1, h2⟩ := h n (by simp)
    cases n with
    | nil => exact absurd rfl h2
    | cons c cs =>
      have hc : c ≠ NUL := fun e => h1 (by simp [e])
      simp [terminated, hc]

theorem mfcGetNextPathName_at (buf : List WCHAR) (pos : Nat) (hpos : pos ≠ 0) :
    mfcGetNextPathName true buf pos =
      (fullPath (wcsAt buf 0) (wcsAt buf pos),
        if unitAt buf (pos + (wcsAt buf pos).length + 1) = NUL then none
        else some (pos + (wcsAt buf pos).length + 1)) := by
  simp only [mfcGetNextPathName, hpos, false_and, if_false]

theorem mfcGetNextPathName_start (buf : List WCHAR)
    (h : unitAt buf ((wcsAt buf 0).length + 1) ≠ NUL) :
    mfcGetNextPathName true buf 0 = mfcGetNextPathName true buf ((wcsAt buf 0).length + 1) := by
  simp [mfcGetNextPathName, h]

theorem mfc_iterates_from (result : Int) (dir : CString) :
    ∀ (rest : List CString) (pre : List WCHAR),
      (∀ n ∈ rest, NUL ∉ n ∧ n ≠ []) → rest ≠ [] → pre ≠ [] →
      wcsAt (pre ++ (terminated rest ++ [NUL])) 0 = dir →
      Iterates (mfcDialog true result (pre ++ (terminated rest ++ [NUL])))
        (some pre.length) (rest.map (fullPath dir)) := by
  intro rest
  induction rest with
  | nil => intro _ _ h; exact absurd rfl h
  | cons n ns ih =>
    intro pre hwf _ hpre hdir
    have hn := (hwf n (by simp)).1
    have hns : ∀ m ∈ ns, NUL ∉ m ∧ m ≠ [] := fun m hm => hwf m (by simp [hm])
    have hlen : pre.length ≠ 0 := by
      intro h; exact hpre (List.length_eq_zero.mp h)
    have hbuf : pre ++ (terminated (n :: ns) ++ [NUL])
        = pre ++ (n ++ NUL :: (terminated ns ++ [NUL])) := by
      simp [terminated]
    have hbuf2 : pre ++ (terminated (n :: ns) ++ [NUL])
        = (pre ++ (n ++ [NUL])) ++ (terminated ns ++ [NUL]) := by
      simp [terminated]
    have hname : wcsAt (pre ++ (terminated (n :: ns) ++ [NUL])) pre.length = n := by
      rw [hbuf]; exact wcsAt_append pre n _ hn
    have hnextlen : pre.length + n.length + 1 = (pre ++ (n ++ [NUL])).length := by
      simp; omega
    have hunit : unitAt (pre ++ (terminated (n :: ns) ++ [NUL])) (pre.length + n.length + 1)
        = (terminated ns ++ [NUL]).headD NUL := by
      rw [hbuf2, hnextlen]; exact unitAt_append _ _
    have hstep := mfcGetNextPathName_at (pre ++ (terminated (n :: ns) ++ [NUL])) pre.length hlen
    rw [hname, hdir, hunit] at hstep
    simp only [List.map_cons]
    by_cases hlast : ns = []
    · subst hlast
      refine Iterates.next _ _ none _ ?_ Iterates.done
      simp only [mfcDialog]
      rw [hstep, if_pos ((headD_terminated [] hns).mpr rfl)]
    · refine Iterates.next _ _ (some (pre.length + n.length + 1)) _ ?_ ?_
      · simp only [mfcDialog]
        rw [hstep, if_neg (fun h => hlast ((headD_terminated ns hns).mp h))]
      · have := ih (pre ++ (n ++ [NUL])) hns hlast (by simp) (by rw [← hbuf2]; exact hdir)
        rw [← hbuf2, ← hnextlen] at this
        exact this

theorem mfc_iterates_multi (result : Int) (dir : CString) (names : List CString)
    (hdir : NUL ∉ dir) (hwf : ∀ n ∈ names, NUL ∉ n ∧ n ≠ []) (hne : names ≠ []) :
    Iterates (mfcDialog true result (multiBuffer dir names)) (some 0)
      (names.map (fullPath dir)) := by
  have hbase : wcsAt (multiBuffer dir names) 0 = dir := by
    have := wcsAt_append [] dir (terminated names ++ [NUL]) hdir
    simpa [multiBuffer] using this
  have hbuf : multiBuffer dir names = (dir ++ [NUL]) ++ (terminated names ++ [NUL]) := by
    simp [multiBuffer]
  have hfrom := mfc_iterates_from result dir names (dir ++ [NUL]) hwf hne (by simp)
    (by rw [← hbuf]; exact hbase)
  rw [← hbuf] at hfrom
  have hunit : unitAt (multiBuffer dir names) ((wcsAt (multiBuffer dir names) 0).length + 1)
      ≠ NUL := by
    rw [hbase]
    have e : dir.length + 1 = (dir ++ [NUL]).length := by simp
    rw [hbuf, e, unitAt_append]
    intro h
    exact hne ((headD_terminated names hwf).mp h)
  have hstart := mfcGetNextPathName_start (multiBuffer dir names) hunit
  rw [hbase] at hstart
  cases names with
  | nil => exact absurd rfl hne
  | cons n ns =>
    simp only [List.map_cons] at hfrom ⊢
    cases hfrom with
    | next p s pos rest hnext hrest =>
      refine Iterates.next 0 _ pos _ ?_ hrest
      simp only [mfcDialog] at hnext ⊢
      rw [hstart]
      have e : (dir ++ [NUL]).length = dir.length + 1 := by simp
      rw [e] at hnext
      exact hnext

theorem mfc_pathName_multi (result : Int) (dir : CString) (names : List CString)
    (hdir : NUL ∉ dir) :
    (mfcDialog true result (multiBuffer dir names)).GetPathName = dir := by
  have := wcsAt_append [] dir (terminated names ++ [NUL]) hdir
  simpa [multiBuffer, mfcDialog] using this

theorem isSuffix_fullPath (dir name : CString) : name <:+ fullPath dir name := by
  unfold fullPath
  split
  · exact List.suffix_append dir name
  · exact ⟨dir ++ [wchar '\\'], by simp⟩

theorem forall2_suffix_fullPath (dir : CString) (names : List CString) :
    List.Forall₂ (fun n e => n <:+ e) names (names.map (fullPath dir)) := by
  induction names with
  | nil => exact List.Forall₂.nil
  | cons n ns ih => exact List.Forall₂.cons (isSuffix_fullPath dir n) ih

theorem multiSelect_mfc_multi (traceLevel : Int) (dir : CString) (names : List CString)
    (hdir : NUL ∉ dir) (hwf : ∀ n ∈ names, NUL ∉ n ∧ n ≠ []) (hk : 2 ≤ names.length) :
    multiSelect traceLevel (mfcDialog true IDOK (multiBuffer dir names)) =
      .returned (some ((dir ++ (_T "\\")) ::
        (names.take MAX_MULTIFILE_SELECTION).map (fullPath dir))) := by
  have hne : names ≠ [] := by
    intro h; rw [h] at hk; simp at hk
  have hit := mfc_iterates_multi IDOK dir names hdir hwf hne
  have hrun := multiSelect_iterates traceLevel (mfcDialog true IDOK (multiBuffer dir names))
    (names.map (fullPath dir)) hit
  rw [hrun, if_neg (by simpa using hne)]
  have hcount : min (names.map (fullPath dir)).length MAX_MULTIFILE_SELECTION ≠ 1 ∧
      min (names.map (fullPath dir)).length MAX_MULTIFILE_SELECTION > 1 := by
    simp only [List.length_map, MAX_MULTIFILE_SELECTION]
    omega
  simp only [multiDir, mfc_pathName_multi IDOK dir names hdir, if_neg hcount.1, if_pos hcount.2,
    List.map_take]

/-- C2 as amended. In multi-selection mode, when the user confirms a selection of `k ≥ 2` files
of one directory, the call returns `min k 100 + 1` strings: first the directory with a
backslash appended, then one string for each of the first `min k 100` files in the order of
the selection buffer, each ending in that file's name. -/
theorem multi_select_directory_then_files (g : Globals) (toolkit : Nat → AwtAnswers)
    (user : DialogConfig → CFileDialog) (a : DialogArgs) (cfg : DialogConfig)
    (dir : CString) (names : List CString)
    (hcfg : dialogConfig g toolkit a = some cfg)
    (hmulti : a.isMulti = true)
    (huser : user cfg = mfcDialog true IDOK (multiBuffer dir names))
    (hdir : NUL ∉ dir) (hwf : ∀ n ∈ names, NUL ∉ n ∧ n ≠ []) (hk : 2 ≤ names.length) :
    ∃ entries : List jstring,
      nativeWindowsFileDialog g toolkit user a
        = .returned (some ((dir ++ (_T "\\")) :: entries)) ∧
      entries.length = min names.length 100 ∧
      List.Forall₂ (fun n e => n <:+ e) (names.take 100) entries := by
  refine ⟨(names.take 100).map (fullPath dir), ?_, ?_, forall2_suffix_fullPath dir _⟩
  · rw [nativeWindowsFileDialog_shown g toolkit user a cfg hcfg, huser]
    have hok : (mfcDialog true IDOK (multiBuffer dir names)).DoModal = IDOK := rfl
    simp only [marshal, hok, hmulti, if_true]
    exact multiSelect_mfc_multi a.traceLevel dir names hdir hwf hk
  · simp [min_comm]

/-- Witness for C2 as amended: the files `a.txt` and `b.txt` selected in `C:\dir`. -/
theorem multi_select_directory_then_files_witness :
    ∃ entries : List jstring,
      nativeWindowsFileDialog Globals.initial noToolkit
        (fun _ => mfcDialog true IDOK
          (multiBuffer (_T "C:\\dir") [_T "a.txt", _T "b.txt"]))
        (plainArgs true) = .returned (some (((_T "C:\\dir") ++ (_T "\\")) :: entries)) ∧
      entries.length = min [_T "a.txt", _T "b.txt"].length 100 ∧
      List.Forall₂ (fun n e => n <:+ e) ([_T "a.txt", _T "b.txt"].take 100) entries :=
  multi_select_directory_then_files Globals.initial noToolkit
    (fun _ => mfcDialog true IDOK
      (multiBuffer (_T "C:\\dir") [_T "a.txt", _T "b.txt"]))
    (plainArgs true) _ (_T "C:\\dir") [_T "a.txt", _T "b.txt"] rfl rfl rfl
    (by decide) (by decide) (by decide)

theorem manyNames_wellFormed : ∀ n ∈ manyNames, NUL ∉ n ∧ n ≠ [] := by
  intro n hn
  simp only [manyNames, List.mem_map, List.mem_range] at hn
  obtain ⟨i, _, rfl⟩ := hn
  refine ⟨?_, by simp⟩
  intro h
  have := List.eq_of_mem_replicate h
  exact absurd this (by decide)

/-- Counterexample to C2 as stated. For `a.txt` and `b.txt` selected in `C:\dir` the strings
after the directory are full paths, not bare names; and for a selection of 101 files the call
returns 101 strings, not 102. -/
theorem multi_select_not_names_nor_all :
    nativeWindowsFileDialog Globals.initial noToolkit
      (fun _ => mfcDialog true IDOK
        (multiBuffer (_T "C:\\dir") [_T "a.txt", _T "b.txt"]))
      (plainArgs true)
      = .returned (some [_T "C:\\dir\\", _T "C:\\dir\\a.txt", _T "C:\\dir\\b.txt"]) ∧
    nativeWindowsFileDialog Globals.initial noToolkit
      (fun _ => mfcDialog true IDOK
        (multiBuffer (_T "C:\\dir") [_T "a.txt", _T "b.txt"]))
      (plainArgs true)
      ≠ .returned (some [_T "C:\\dir\\", _T "a.txt", _T "b.txt"]) ∧
    manyNames.length = 101 ∧
    ∃ ret, nativeWindowsFileDialog Globals.initial noToolkit
      (fun _ => mfcDialog true IDOK (multiBuffer (_T "C:\\dir") manyNames))
      (plainArgs true) = .returned (some ret) ∧ ret.length = 101 := by
  refine ⟨by decide, by decide, by simp [manyNames], ?_⟩
  refine ⟨((_T "C:\\dir") ++ (_T "\\")) ::
    (manyNames.take MAX_MULTIFILE_SELECTION).map (fullPath (_T "C:\\dir")), ?_, ?_⟩
  · rw [nativeWindowsFileDialog_shown Globals.initial noToolkit _ (plainArgs true) _ rfl]
    have hok : (mfcDialog true IDOK (multiBuffer (_T "C:\\dir") manyNames)).DoModal = IDOK :=
      rfl
    simp only [marshal, hok, plainArgs, if_true, Bool.not_true, Bool.false_eq_true, if_false]
    exact multiSelect_mfc_multi _ (_T "C:\\dir") manyNames (by decide) manyNames_wellFormed
      (by simp [manyNames])
  · simp [manyNames, MAX_MULTIFILE_SELECTION]

theorem mfc_iterates_single (result : Int) (path : CString) (h : NUL ∉ path) :
    Iterates (mfcDialog true result (singleBuffer path)) (some 0) [path] := by
  have hbase : wcsAt (singleBuffer path) 0 = path := by
    have := wcsAt_append [] path [NUL] h
    simpa [singleBuffer] using this
  have hunit : unitAt (singleBuffer path) (path.length + 1) = NUL := by
    have e : singleBuffer path = (path ++ [NUL]) ++ [NUL] := by simp [singleBuffer]
    have l : path.length + 1 = (path ++ [NUL]).length := by simp
    rw [e, l, unitAt_append]
    rfl
  refine Iterates.next 0 path none [] ?_ Iterates.done
  simp [mfcDialog, mfcGetNextPathName, hbase, hunit]

theorem multiSelect_mfc_single (traceLevel : Int) (path : CString) (h : NUL ∉ path) :
    multiSelect traceLevel (mfcDialog true IDOK (singleBuffer path)) =
      .returned (some [Left path (ReverseFind path (wchar '\\') + 1), path]) := by
  have hbase : (mfcDialog true IDOK (singleBuffer path)).GetPathName = path := by
    have := wcsAt_append [] path [NUL] h
    simpa [singleBuffer, mfcDialog] using this
  rw [multiSelect_iterates traceLevel _ [path] (mfc_iterates_single IDOK path h)]
  simp [multiDir, hbase, MAX_MULTIFILE_SELECTION]

/-- C3 at its own example. With multi-selection and the one file `C:\dir\file.txt` selected,
the call returns the directory `C:\dir\` followed by the full path `C:\dir\file.txt`; the
single-selection call for the same path returns `C:\dir\` followed by `file.txt`. The
lemma `multiSelect_mfc_single` gives the same shape for every path. -/
theorem multi_select_of_one_file_returns_full_path :
    nativeWindowsFileDialog Globals.initial noToolkit
      (fun _ => mfcDialog true IDOK (singleBuffer (_T "C:\\dir\\file.txt")))
      (plainArgs true)
      = .returned (some [_T "C:\\dir\\", _T "C:\\dir\\file.txt"]) ∧
    nativeWindowsFileDialog Globals.initial noToolkit
      (fun _ => mfcDialog false IDOK (singleBuffer (_T "C:\\dir\\file.txt")))
      (plainArgs false)
      = .returned (some [_T "C:\\dir\\", _T "file.txt"]) := by
  decide

/-! ## Initialization -/

theorem initializeLoaded_cases (os : Win32) (arch : Arch) (g : Globals) (h : HMODULE)
    (loads : List InitEvent) (hq : queries loads = 0) (hf : freed loads = []) :
    let r := initializeLoaded os arch g h loads
    (r.status = 0 ∧ r.globals._hJAWT = some h ∧ queries r.events = 1 ∧ freed r.events = [] ∧
      ∃ proc, os.GetProcAddress h arch.symbol = some proc ∧
        (os.JAWT_GetAWT proc { g.awt with version := JAWT_VERSION_1_4 }).1 = true ∧
        r.globals.awt = (os.JAWT_GetAWT proc { g.awt with version := JAWT_VERSION_1_4 }).2) ∨
    (r.status = ERR_CANT_GET_JAWT_PROC ∧ r.globals._hJAWT = none ∧ r.globals.awt = g.awt ∧
      queries r.events = 0 ∧ freed r.events = [h]) ∨
    (r.status = ERR_CANT_GET_AWT ∧ r.globals._hJAWT = none ∧ queries r.events = 1 ∧
      freed r.events = [h] ∧
      ∃ proc, os.GetProcAddress h arch.symbol = some proc ∧
        (os.JAWT_GetAWT proc { g.awt with version := JAWT_VERSION_1_4 }).1 = false ∧
        r.globals.awt = (os.JAWT_GetAWT proc { g.awt with version := JAWT_VERSION_1_4 }).2) := by
  intro r
  simp only [r, initializeLoaded]
  cases hp : os.GetProcAddress h arch.symbol with
  | none =>
    right; left
    simp only [queries, freed] at hq hf ⊢
    simp [hq, hf]
  | some proc =>
    simp only
    cases hr : (os.JAWT_GetAWT proc { g.awt with version := JAWT_VERSION_1_4 }).1 with
    | false =>
      right; right
      simp only [queries, freed] at hq hf ⊢
      simp [hq, hf, hr]
    | true =>
      left
      simp only [queries, freed] at hq hf ⊢
      simp [hq, hf, hr]

theorem nativeWindowsInitialize_cases (os : Win32) (arch : Arch) (g : Globals) (traceLevel : Int)
    (j_javaHome : Option jstring) (hnull : g._hJAWT = none) :
    let r := nativeWindowsInitialize os arch g traceLevel j_javaHome
    ((r.status = 0 ∧ r.globals._hJAWT ≠ none ∧ queries r.events = 1 ∧
        freed r.events = [] ∧
        ∃ proc, (os.JAWT_GetAWT proc { g.awt with version := JAWT_VERSION_1_4 }).1 = true ∧
          r.globals.awt = (os.JAWT_GetAWT proc { g.awt with version := JAWT_VERSION_1_4 }).2) ∨
      (r.status = ERR_CANT_LOAD_JAWT_DLL ∧ r.globals._hJAWT = none ∧ r.globals.awt = g.awt ∧
        queries r.events = 0 ∧ freed r.events = []) ∨
      (r.status = ERR_CANT_GET_JAWT_PROC ∧ r.globals._hJAWT = none ∧ r.globals.awt = g.awt ∧
        queries r.events = 0 ∧ (freed r.events).length = 1) ∨
      (r.status = ERR_CANT_GET_AWT ∧ r.globals._hJAWT = none ∧ queries r.events = 1 ∧
        (freed r.events).length = 1 ∧
        ∃ proc, (os.JAWT_GetAWT proc { g.awt with version := JAWT_VERSION_1_4 }).1 = false ∧
          r.globals.awt = (os.JAWT_GetAWT proc { g.awt with version := JAWT_VERSION_1_4 }).2)) ∧
    [0, ERR_ALREADY_INITIALIZED, ERR_CANT_LOAD_JAWT_DLL, ERR_CANT_GET_JAWT_PROC,
      ERR_CANT_GET_AWT].Nodup := by
  intro r
  refine ⟨?_, by decide⟩
  have key : ∀ h loads, queries loads = 0 → freed loads = [] →
      r = initializeLoaded os arch g h loads → _ := fun h loads hq hf hr => by
    have := initializeLoaded_cases os arch g h loads hq hf
    simp only at this
    rw [← hr] at this
    exact this
  simp only [r, nativeWindowsInitialize, hnull, Option.isSome_none, Bool.false_eq_true,
    if_false] at key ⊢
  cases h1 : os.LoadLibrary
      (CString.ofLPCWSTR (getString j_javaHome) ++ _T "\\bin" ++ _T "\\jawt.dll") with
  | some h =>
    simp only [h1] at key ⊢
    rcases key h _ (by simp [queries]) (by simp [freed]) rfl with c | c | c
    · left
      obtain ⟨a, b, c, d, proc, _, e, f⟩ := c
      exact ⟨a, by rw [b]; simp, c, d, proc, e, f⟩
    · right; right; left
      obtain ⟨a, b, c, d, e⟩ := c
      exact ⟨a, b, c, d, by rw [e]; rfl⟩
    · right; right; right
      obtain ⟨a, b, c, d, proc, _, e, f⟩ := c
      exact ⟨a, b, c, by rw [d]; rfl, proc, e, f⟩
  | none =>
    simp only [h1] at key ⊢
    cases h2 : os.LoadLibrary
        (CString.ofLPCWSTR (getString j_javaHome) ++ _T "\\bin" ++ _T "\\awt.dll") with
    | some h =>
      simp only [h2] at key ⊢
      rcases key h _ (by simp [queries]) (by simp [freed]) rfl with c | c | c
      · left
        obtain ⟨a, b, c, d, proc, _, e, f⟩ := c
        exact ⟨a, by rw [b]; simp, c, d, proc, e, f⟩
      · right; right; left
        obtain ⟨a, b, c, d, e⟩ := c
        exact ⟨a, b, c, d, by rw [e]; rfl⟩
      · right; right; right
        obtain ⟨a, b, c, d, proc, _, e, f⟩ := c
        exact ⟨a, b, c, by rw [d]; rfl, proc, e, f⟩
    | none =>
      right; left
      simp [queries, freed]

theorem nativeWindowsInitialize_initialized (os : Win32) (arch : Arch) (g : Globals)
    (traceLevel : Int) (j_javaHome : Option jstring) (h : g._hJAWT ≠ none) :
    nativeWindowsInitialize os arch g traceLevel j_javaHome
      = ⟨ERR_ALREADY_INITIALIZED, g, []⟩ := by
  cases hg : g._hJAWT with
  | none => exact absurd hg h
  | some m => simp [nativeWindowsInitialize, hg]

theorem nativeWindowsInitialize_handle (os : Win32) (arch : Arch) (g : Globals)
    (traceLevel : Int) (j_javaHome : Option jstring) :
    (nativeWindowsInitialize os arch g traceLevel j_javaHome).globals._hJAWT ≠ none ↔
      ((nativeWindowsInitialize os arch g traceLevel j_javaHome).status = 0 ∨
       (nativeWindowsInitialize os arch g traceLevel j_javaHome).status
         = ERR_ALREADY_INITIALIZED) := by
  by_cases hg : g._hJAWT = none
  · have h := (nativeWindowsInitialize_cases os arch g traceLevel j_javaHome hg).1
    simp only at h
    rcases h with c | c | c | c
    · simp [c.1, c.2.1]
    · rw [c.1, c.2.1]; decide
    · rw [c.1, c.2.1]; decide
    · rw [c.1, c.2.1]; decide
  · rw [nativeWindowsInitialize_initialized os arch g traceLevel j_javaHome hg]
    simp [hg]

theorem nativeWindowsInitialize_rejects_iff (os : Win32) (arch : Arch) (g : Globals)
    (traceLevel : Int) (j_javaHome : Option jstring) :
    (nativeWindowsInitialize os arch g traceLevel j_javaHome).status = ERR_ALREADY_INITIALIZED
      ↔ g._hJAWT ≠ none := by
  by_cases hg : g._hJAWT = none
  · have h := (nativeWindowsInitialize_cases os arch g traceLevel j_javaHome hg).1
    simp only at h
    rcases h with c | c | c | c <;> rw [c.1] <;> simp [hg] <;> decide
  · rw [nativeWindowsInitialize_initialized os arch g traceLevel j_javaHome hg]
    simp [hg]

/-- C5 as amended. Of two consecutive calls of `initialize`, with any systems, trace levels and
home paths, the second returns already-initialized (-8) - leaving the globals as they are and
calling nothing - exactly when the first returned success (0) or already-initialized (-8).
After a first call that failed the handle is null again and the second call tries afresh. -/
theorem second_initialize_rejected_iff (os1 os2 : Win32) (arch : Arch) (g : Globals)
    (traceLevel1 traceLevel2 : Int) (j_javaHome1 j_javaHome2 : Option jstring) :
    ((nativeWindowsInitialize os2 arch
        (nativeWindowsInitialize os1 arch g traceLevel1 j_javaHome1).globals
        traceLevel2 j_javaHome2).status = ERR_ALREADY_INITIALIZED ↔
      ((nativeWindowsInitialize os1 arch g traceLevel1 j_javaHome1).status = 0 ∨
       (nativeWindowsInitialize os1 arch g traceLevel1 j_javaHome1).status
         = ERR_ALREADY_INITIALIZED)) ∧
    ((nativeWindowsInitialize os2 arch
        (nativeWindowsInitialize os1 arch g traceLevel1 j_javaHome1).globals
        traceLevel2 j_javaHome2).status = ERR_ALREADY_INITIALIZED ↔
      nativeWindowsInitialize os2 arch
        (nativeWindowsInitialize os1 arch g traceLevel1 j_javaHome1).globals
        traceLevel2 j_javaHome2
      = ⟨ERR_ALREADY_INITIALIZED,
          (nativeWindowsInitialize os1 arch g traceLevel1 j_javaHome1).globals, []⟩) := by
  constructor
  · rw [nativeWindowsInitialize_rejects_iff, nativeWindowsInitialize_handle]
  · constructor
    · intro h
      exact nativeWindowsInitialize_initialized _ _ _ _ _
        ((nativeWindowsInitialize_rejects_iff _ _ _ _ _).mp h)
    · intro h
      rw [h]

/-- Counterexample to C5 as stated: on a system where no library loads, the first call returns
-7 and so does the second. -/
theorem second_initialize_after_failure :
    (nativeWindowsInitialize noLibrary Arch.x64 Globals.initial 0
      (some (_T "C:\\jre"))).status = ERR_CANT_LOAD_JAWT_DLL ∧
    (nativeWindowsInitialize noLibrary Arch.x64
      (nativeWindowsInitialize noLibrary Arch.x64 Globals.initial 0
        (some (_T "C:\\jre"))).globals 0 (some (_T "C:\\jre"))).status
      = ERR_CANT_LOAD_JAWT_DLL ∧
    (nativeWindowsInitialize noLibrary Arch.x64
      (nativeWindowsInitialize noLibrary Arch.x64 Globals.initial 0
        (some (_T "C:\\jre"))).globals 0 (some (_T "C:\\jre"))).status
      ≠ ERR_ALREADY_INITIALIZED := by
  decide

/-- C6 as amended. A call of `initialize` with no library handle stored ends in one of four
ways. Success: status 0, the handle stored, no library freed, and the handle table is what the
one capability query left. Load failure: status -7, handle null, table untouched, no query.
Symbol failure: status -6, handle null, table untouched, no query, the library freed. Query
failure: status -5, handle null, the library freed, and the table is what the one failed query
left of the table with its version field set to `JAWT_VERSION_1_4`. The five status codes are
pairwise different. -/
theorem initialize_outcomes (os : Win32) (arch : Arch) (g : Globals) (traceLevel : Int)
    (j_javaHome : Option jstring) (hnull : g._hJAWT = none) :
    let r := nativeWindowsInitialize os arch g traceLevel j_javaHome
    ((r.status = 0 ∧ r.globals._hJAWT ≠ none ∧ queries r.events = 1 ∧
        freed r.events = [] ∧
        ∃ proc, (os.JAWT_GetAWT proc { g.awt with version := JAWT_VERSION_1_4 }).1 = true ∧
          r.globals.awt = (os.JAWT_GetAWT proc { g.awt with version := JAWT_VERSION_1_4 }).2) ∨
      (r.status = ERR_CANT_LOAD_JAWT_DLL ∧ r.globals._hJAWT = none ∧ r.globals.awt = g.awt ∧
        queries r.events = 0 ∧ freed r.events = []) ∨
      (r.status = ERR_CANT_GET_JAWT_PROC ∧ r.globals._hJAWT = none ∧ r.globals.awt = g.awt ∧
        queries r.events = 0 ∧ (freed r.events).length = 1) ∨
      (r.status = ERR_CANT_GET_AWT ∧ r.globals._hJAWT = none ∧ queries r.events = 1 ∧
        (freed r.events).length = 1 ∧
        ∃ proc, (os.JAWT_GetAWT proc { g.awt with version := JAWT_VERSION_1_4 }).1 = false ∧
          r.globals.awt = (os.JAWT_GetAWT proc { g.awt with version := JAWT_VERSION_1_4 }).2)) ∧
    [0, ERR_ALREADY_INITIALIZED, ERR_CANT_LOAD_JAWT_DLL, ERR_CANT_GET_JAWT_PROC,
      ERR_CANT_GET_AWT].Nodup :=
  nativeWindowsInitialize_cases os arch g traceLevel j_javaHome hnull

/-- Witness for C6 as amended: the first call on a system where everything works. -/
theorem initialize_outcomes_witness :
    Globals.initial._hJAWT = none ∧
    (nativeWindowsInitialize workingToolkit Arch.x64 Globals.initial 0
      (some (_T "C:\\jre"))).status = 0 ∧
    (nativeWindowsInitialize workingToolkit Arch.x64 Globals.initial 0
      (some (_T "C:\\jre"))).globals._hJAWT ≠ none ∧
    queries (nativeWindowsInitialize workingToolkit Arch.x64 Globals.initial 0
      (some (_T "C:\\jre"))).events = 1 :=
  ⟨rfl, by
    rcases (initialize_outcomes workingToolkit Arch.x64 Globals.initial 0
      (some (_T "C:\\jre")) rfl).1 with h | h | h | h
    · exact ⟨h.1, h.2.1, h.2.2.1⟩
    · exact absurd h.1 (by decide)
    · exact absurd h.1 (by decide)
    · exact absurd h.1 (by decide)⟩

/-- Counterexample to C6 as stated: when the capability query refuses, the call returns -5 with
the handle null again, but the handle table is not as it was before the call - its version
field now holds `JAWT_VERSION_1_4`. -/
theorem failed_query_leaves_version_set :
    Globals.initial._hJAWT = none ∧
    (nativeWindowsInitialize refusingToolkit Arch.x64 Globals.initial 0
      (some (_T "C:\\jre"))).status = ERR_CANT_GET_AWT ∧
    (nativeWindowsInitialize refusingToolkit Arch.x64 Globals.initial 0
      (some (_T "C:\\jre"))).globals._hJAWT = none ∧
    (nativeWindowsInitialize refusingToolkit Arch.x64 Globals.initial 0
      (some (_T "C:\\jre"))).globals.awt ≠ Globals.initial.awt ∧
    Globals.initial.awt.version = 0 ∧
    (nativeWindowsInitialize refusingToolkit Arch.x64 Globals.initial 0
      (some (_T "C:\\jre"))).globals.awt.version = JAWT_VERSION_1_4 := by
  decide

/-! ## The window handle resolver -/

/-- C7. Whatever the four toolkit steps answer, the calls of `GetWindowHandleFromAWT` release
exactly the resources that were acquired, each once, in the reverse of the order of
acquisition, after the last acquiring call and with the handles that were obtained: the
drawing surface is freed iff it was obtained, unlocked iff the lock succeeded, and the surface
info is freed iff it was obtained. When the lock succeeds and the info query fails, the calls
are: get surface, lock, failed info query, unlock, free surface. -/
theorem window_handle_resolver_releases (g : Globals) (toolkit : Nat → AwtAnswers)
    (traceLevel : Int) (j_parent : Nat) :
    released (GetWindowHandleFromAWT g toolkit traceLevel j_parent).2
      = (acquired (GetWindowHandleFromAWT g toolkit traceLevel j_parent).2).reverse ∧
    (acquired (GetWindowHandleFromAWT g toolkit traceLevel j_parent).2).Nodup ∧
    (Resource.surface ∈ acquired (GetWindowHandleFromAWT g toolkit traceLevel j_parent).2 ↔
      g._hJAWT ≠ none ∧ (toolkit j_parent).GetDrawingSurface ≠ none) ∧
    (Resource.lock ∈ acquired (GetWindowHandleFromAWT g toolkit traceLevel j_parent).2 ↔
      g._hJAWT ≠ none ∧ (toolkit j_parent).GetDrawingSurface ≠ none ∧
      (toolkit j_parent).Lock &&& JAWT_LOCK_ERROR = 0) ∧
    (Resource.info ∈ acquired (GetWindowHandleFromAWT g toolkit traceLevel j_parent).2 ↔
      g._hJAWT ≠ none ∧ (toolkit j_parent).GetDrawingSurface ≠ none ∧
      (toolkit j_parent).Lock &&& JAWT_LOCK_ERROR = 0 ∧
      (toolkit j_parent).GetDrawingSurfaceInfo ≠ none) ∧
    (∃ acquiring releasing,
      (GetWindowHandleFromAWT g toolkit traceLevel j_parent).2 = acquiring ++ releasing ∧
      released acquiring = [] ∧ acquired releasing = [] ∧
      (∀ e ∈ releasing, (∃ ds, (toolkit j_parent).GetDrawingSurface = some ds ∧
          (e = .FreeDrawingSurface ds ∨ e = .Unlock ds)) ∨
        (∃ dsi, (toolkit j_parent).GetDrawingSurfaceInfo = some dsi ∧
          e = .FreeDrawingSurfaceInfo dsi))) ∧
    (∀ ds, g._hJAWT ≠ none → (toolkit j_parent).GetDrawingSurface = some ds →
      (toolkit j_parent).Lock &&& JAWT_LOCK_ERROR = 0 →
      (toolkit j_parent).GetDrawingSurfaceInfo = none →
      (GetWindowHandleFromAWT g toolkit traceLevel j_parent).2
        = [.GetDrawingSurface true, .Lock true, .GetDrawingSurfaceInfo false,
           .Unlock ds, .FreeDrawingSurface ds]) := by
  unfold GetWindowHandleFromAWT
  cases hg : g._hJAWT with
  | none =>
    simp only [Option.isNone_none, if_true, acquired, released]
    exact ⟨rfl, List.nodup_nil, by simp, by simp, by simp,
      ⟨[], [], by simp [acquired, released]⟩, by simp⟩
  | some m =>
    simp only [Option.isNone_some, Bool.false_eq_true, if_false]
    cases hds : (toolkit j_parent).GetDrawingSurface with
    | none =>
      simp only [acquired, released]
      exact ⟨rfl, List.nodup_nil, by simp, by simp, by simp,
        ⟨[.GetDrawingSurface false], [], by simp [acquired, released]⟩, by simp⟩
    | some ds =>
      simp only
      by_cases hl : (toolkit j_parent).Lock &&& JAWT_LOCK_ERROR = 0
      · rw [if_neg (by simpa using hl)]
        cases hi : (toolkit j_parent).GetDrawingSurfaceInfo with
        | none =>
          simp only [acquired, released, out1, out2, List.cons_append, List.nil_append]
          refine ⟨rfl, by decide, by simp, by simp [hl], by simp, ?_, by simp⟩
          exact ⟨[.GetDrawingSurface true, .Lock true, .GetDrawingSurfaceInfo false],
            [.Unlock ds, .FreeDrawingSurface ds], by simp [acquired, released]⟩
        | some dsi =>
          simp only
          cases hp : (toolkit j_parent).platformInfo with
          | none =>
            simp only [acquired, released, out1, out2, out3, List.cons_append, List.nil_append]
            refine ⟨rfl, by decide, by simp, by simp [hl], by simp [hl], ?_, by simp⟩
            exact ⟨[.GetDrawingSurface true, .Lock true, .GetDrawingSurfaceInfo true],
              [.FreeDrawingSurfaceInfo dsi, .Unlock ds, .FreeDrawingSurface ds],
              by simp [acquired, released]⟩
          | some hwnd =>
            simp only [acquired, released, out1, out2, out3, List.cons_append, List.nil_append]
            refine ⟨rfl, by decide, by simp, by simp [hl], by simp [hl], ?_, by simp⟩
            exact ⟨[.GetDrawingSurface true, .Lock true, .GetDrawingSurfaceInfo true],
              [.FreeDrawingSurfaceInfo dsi, .Unlock ds, .FreeDrawingSurface ds],
              by simp [acquired, released]⟩
      · rw [if_pos (by simpa using hl)]
        simp only [acquired, released, out1, List.cons_append, List.nil_append]
        refine ⟨rfl, by decide, by simp, by simp [hl], by simp [hl], ?_, ?_⟩
        · exact ⟨[.GetDrawingSurface true, .Lock false], [.FreeDrawingSurface ds],
            by simp [acquired, released]⟩
        · intro ds1 _ _ h; exact absurd h hl

/-- The partial-failure path of C7 on a concrete toolkit: the lock succeeds, the info query
fails, the surface is unlocked and freed. -/
theorem window_handle_resolver_releases_witness :
    (GetWindowHandleFromAWT initializedGlobals surfaceWithoutInfo 0 7).2
      = [.GetDrawingSurface true, .Lock true, .GetDrawingSurfaceInfo false,
         .Unlock 11, .FreeDrawingSurface 11] :=
  (window_handle_resolver_releases initializedGlobals surfaceWithoutInfo 0 7).2.2.2.2.2.2 11
    (by decide) rfl (by decide) rfl

end XFileDialog
